import Mathlib

set_option maxHeartbeats 1000000

/-!
Verification of the PmodAQS CCS811 air-quality sensor driver (src/src/main.c).

The development shallowly embeds the driver: each bus-facing C function is
translated to a Lean function that returns the bus transaction it issues
(plus its return code where the C function has one), the boot sequence of
main() is a straight-line composition of those calls, and the event-driven
read loop is modelled both as a pure per-iteration function and as a small
deterministic transition system that includes the GPIO interrupt handler,
the NVIC enable/pending bits and the GPIO interrupt-flag latch.

The bus itself (I2CSPM_Transfer / I2C_Transfer, external library code) is
modelled as an environment-supplied response per transaction: a success bit
(i2cTransferDone or not) together with the bytes landing in the caller's
buffer on success.  Per the transport contract a transfer either moves all
requested bytes or fails leaving the caller's buffer untouched.
-/

namespace PmodAQS

/-- Register addresses, src/src/main.c lines 70-86. -/
def CCS811_ADDR_STATUS : Nat := 0x00

/-- Measurement mode and conditions register, line 71. -/
def CCS811_ADDR_MEASURE_MODE : Nat := 0x01

/-- Algorithm result register, line 72. -/
def CCS811_ADDR_ALG_RESULT_DATA : Nat := 0x02

/-- Thresholds register, line 76. -/
def CCS811_ADDR_THRESHOLDS : Nat := 0x10

/-- Hardware ID register, line 77. -/
def CCS811_ADDR_HW_ID : Nat := 0x20

/-- Error ID register, line 81. -/
def CCS811_ADDR_ERR_ID : Nat := 0xE0

/-- Firmware verification command register, line 84. -/
def CCS811_ADDR_FW_VERIFY : Nat := 0xF3

/-- Application start command register, line 85. -/
def CCS811_ADDR_APP_START : Nat := 0xF4

/-- DRIVE_MODE field bit shift value, line 93. -/
def CCS811_MEASURE_MODE_DRIVE_MODE_SHIFT : Nat := 4

/-- IAQ Mode 1, a measurement every second, line 95. -/
def CCS811_MEASURE_MODE_DRIVE_MODE_1SEC : Nat := 0x10

/-- Interrupt generation enable, line 99. -/
def CCS811_MEASURE_MODE_INTERRUPT : Nat := 0x08

/-- Threshold interrupt enable, line 100. -/
def CCS811_MEASURE_MODE_THRESH : Nat := 0x04

/-- The fixed slave address constant, line 53 (emlib convention: the 7-bit
device address occupies the upper 7 bits of the byte, bit 0 is the R/W slot). -/
def I2C_ADDRESS : Nat := 0xB6

/-- The shape of an I2C transfer: I2C_FLAG_WRITE, I2C_FLAG_WRITE_WRITE or
I2C_FLAG_WRITE_READ. -/
inductive TransferShape
  | write
  | writeWrite
  | writeRead

/-- One bus transaction as assembled into an I2C_TransferSeq_TypeDef:
slave address, flag shape, the register id sent in the first write phase,
the payload of the second write phase (writeWrite), and the number of
bytes requested in the read phase (writeRead). -/
structure Transaction where
  addr : Nat
  shape : TransferShape
  regId : Nat
  payload : List Nat
  readLen : Nat

/-- The environment's outcome for one bus transfer: whether
I2CSPM_Transfer returned i2cTransferDone, and the bytes landing in the
caller's read buffer when it did. -/
structure BusResponse where
  ok : Bool
  bytes : List Nat

/-- Byte i of an environment-provided buffer; entries are uint8_t so they
are reduced mod 256. -/
def byteD (l : List Nat) (i : Nat) : Nat := (l.getD i 0) % 256

/-- Transaction issued by writeRegister(id, data), lines 179-204: a
WRITE_WRITE transfer sending the register id then one payload byte. -/
def writeRegisterTx (id data : Nat) : Transaction :=
  ⟨I2C_ADDRESS, .writeWrite, id % 256, [data % 256], 0⟩

/-- Return code of writeRegister, lines 199-203: 1 when the transfer did
not complete, 0 otherwise. -/
def writeRegisterRC (resp : BusResponse) : Nat := if resp.ok then 0 else 1

/-- sizeof(uint8_t*) on the 32-bit ARM Cortex-M target: 4 bytes. -/
def sizeof_uint8_ptr : Nat := 4

/-- Declared width of the thresholds register: 4 bytes (two 16-bit
thresholds), matching the 4-entry treshData array at line 106. -/
def thresholdsWidth : Nat := 4

/-- Transaction issued by writeMailbox(id, data), lines 207-232.  Line 222
sets the second phase length to sizeof(data) where data is a uint8_t*, so
the transfer always carries sizeof_uint8_ptr = 4 bytes starting at the
pointer, regardless of how many elements the caller's array holds (bytes
past a shorter array are indeterminate; modelled as zeros). -/
def writeMailboxTx (id : Nat) (data : List Nat) : Transaction :=
  ⟨I2C_ADDRESS, .writeWrite, id % 256,
    (data.take sizeof_uint8_ptr).map (· % 256)
      ++ List.replicate (sizeof_uint8_ptr - data.length) 0, 0⟩

/-- Return code of writeMailbox, lines 227-231. -/
def writeMailboxRC (resp : BusResponse) : Nat := if resp.ok then 0 else 1

/-- Mailbox write as the spec sentence for claim C6 words it: the payload
length is the explicit element count of the caller's buffer.  Stated only
to be compared with writeMailboxTx, the embedding of the source. -/
def writeMailboxSpecTx (id : Nat) (data : List Nat) : Transaction :=
  ⟨I2C_ADDRESS, .writeWrite, id % 256, data.map (· % 256), 0⟩

/-- Transaction issued by writeNoData(id), lines 235-256: a write-only
transfer of the single register id byte. -/
def writeNoDataTx (id : Nat) : Transaction :=
  ⟨I2C_ADDRESS, .write, id % 256, [], 0⟩

/-- Everything writeNoData returns to its caller, lines 235-256.  The C
function has return type void: it busy-waits on I2C_Transfer until the
result is no longer i2cTransferInProgress and then discards it, so its
output is the issued transaction alone and does not depend on the
transfer's outcome. -/
def writeNoDataOut (id : Nat) (_resp : BusResponse) : Transaction :=
  writeNoDataTx id

/-- Transaction issued by readMailbox(id, length, data), lines 260-285: a
WRITE_READ transfer sending the register id then reading length bytes. -/
def readMailboxTx (id len : Nat) : Transaction :=
  ⟨I2C_ADDRESS, .writeRead, id % 256, [], len % 256⟩

/-- Return code of readMailbox, lines 280-284. -/
def readMailboxRC (resp : BusResponse) : Nat := if resp.ok then 0 else 1

/-- Contents of the caller's buffer after a readMailbox of len bytes: on
success the bytes delivered by the device, on failure the buffer is left
as it was (the transport either moves all requested bytes or fails). -/
def bufAfterRead (resp : BusResponse) (len : Nat) (old : List Nat) : List Nat :=
  if resp.ok then (resp.bytes.take len).map (· % 256) else old

/-- Response the environment gives to the i-th transaction of a run; an
exhausted environment answers with failure. -/
def respAt (env : List BusResponse) (i : Nat) : BusResponse :=
  env.getD i ⟨false, []⟩

/-- The measure-mode byte main() writes at line 352:
CCS811_MEASURE_MODE_DRIVE_MODE_1SEC + CCS811_MEASURE_MODE_INTERRUPT. -/
def measureModeBoot : Nat :=
  CCS811_MEASURE_MODE_DRIVE_MODE_1SEC + CCS811_MEASURE_MODE_INTERRUPT

/-- The boot sequence of main(), lines 339-356, as a straight line of
driver calls: each call's transaction is recorded in order, every return
code is discarded exactly as main() discards it, and the one-byte data
buffer is overwritten by each readMailbox (its initial contents are
indeterminate in C; modelled as 0).  Returns the transaction trace and
the final buffer contents.  The commented-out thresholds write at line
350 issues nothing. -/
def runBoot (env : List BusResponse) : List Transaction × List Nat :=
  let d0 : List Nat := [0]
  let d1 := bufAfterRead (respAt env 0) 1 d0
  let d2 := bufAfterRead (respAt env 1) 1 d1
  let d3 := bufAfterRead (respAt env 5) 1 d2
  let d4 := bufAfterRead (respAt env 6) 1 d3
  ( [ readMailboxTx CCS811_ADDR_HW_ID 1
    , readMailboxTx CCS811_ADDR_STATUS 1
    , writeNoDataTx CCS811_ADDR_FW_VERIFY
    , writeNoDataTx CCS811_ADDR_APP_START
    , writeRegisterTx CCS811_ADDR_MEASURE_MODE measureModeBoot
    , readMailboxTx CCS811_ADDR_ERR_ID 1
    , readMailboxTx CCS811_ADDR_MEASURE_MODE 1 ]
  , d4 )

/-- The three-level air quality classification emitted by the read loop. -/
inductive AirQualityLevel
  | Good
  | Warning
  | Alert
deriving DecidableEq

/-- The classification chain of main(), lines 370-379: concatData > 1200
is the alert branch, else concatData > 900 the warning branch, else the
good branch. -/
def classify (v : Nat) : AirQualityLevel :=
  if v > 1200 then .Alert else if v > 900 then .Warning else .Good

/-- Severity order on levels: Good 0, Warning 1, Alert 2. -/
def severity : AirQualityLevel → Nat
  | .Good => 0
  | .Warning => 1
  | .Alert => 2

/-- The BSP_LedsSet argument each branch passes, lines 371, 375, 378. -/
def ledPattern : AirQualityLevel → Nat
  | .Alert => 3
  | .Warning => 1
  | .Good => 0

/-- Line 368: concatData = (algresultData[0] << 8) | algresultData[1];
the buffer entries are uint8_t. -/
def concatData (buf : Nat × Nat) : Nat :=
  (buf.1 % 256) <<< 8 ||| (buf.2 % 256)

/-- The two-byte algorithm-result buffer after a readMailbox of 2 bytes:
updated from the bus on success, untouched on failure. -/
def algBufAfterRead (resp : BusResponse) (old : Nat × Nat) : Nat × Nat :=
  if resp.ok then (byteD resp.bytes 0, byteD resp.bytes 1) else old

/-- The argument main() passes to BSP_LedsSet for a decoded value, the
if-chain of lines 370-379. -/
def ledsSetArg (v : Nat) : Nat :=
  if v > 1200 then 3 else if v > 900 then 1 else 0

/-- State carried across read-loop iterations: the dataAvailable flag
(line 105), the two-byte algresultData buffer (line 359, indeterminate
before the first successful read), and the list of BSP_LedsSet calls
made so far, in order. -/
structure LoopState where
  dataAvailable : Bool
  algresultData : Nat × Nat
  ledTrace : List Nat

/-- One iteration of the while(1) body, lines 361-384, with the interrupt
masking kept aside (see the transition system below): when dataAvailable
is set, main() calls readMailbox(ALG_RESULT_DATA, 2, algresultData)
discarding its return code, decodes concatData, clears dataAvailable and
drives the LEDs through the classification chain; otherwise nothing
happens.  Returns the new state and the transactions issued. -/
def loopIter (resp : BusResponse) (s : LoopState) : LoopState × List Transaction :=
  if s.dataAvailable then
    let buf := algBufAfterRead resp s.algresultData
    let v := concatData buf
    (⟨false, buf, s.ledTrace ++ [ledsSetArg v]⟩,
      [readMailboxTx CCS811_ADDR_ALG_RESULT_DATA 2])
  else (s, [])

/-- Program counter positions inside the while(1) loop of main(), lines
361-384: about to call disableSensorInterrupts (line 363), about to test
dataAvailable (line 364), about to run the read/classify body (lines
367-379), about to call enableSensorInterrupts (line 382), parked in
EMU_EnterEM3 (line 383). -/
inductive PC
  | disable
  | check
  | service
  | enable
  | sleep
deriving DecidableEq

/-- The whole-system state for the event-driven read loop: the loop's
program counter, the NVIC enable bit for the sensor GPIO interrupts, the
NVIC pending bit, the GPIO interrupt-flag latch (set by the hardware
edge, cleared only by GPIO_IntClear inside the handlers), the
dataAvailable flag, and the loop data of LoopState. -/
structure SysState where
  pc : PC
  irqEnabled : Bool
  nvicPending : Bool
  gpioIF : Bool
  dataAvailable : Bool
  algresultData : Nat × Nat
  ledTrace : List Nat
  txs : List Transaction

/-- Environment input for one step: whether a data-ready edge arrives at
this step, and the bus response used if this step performs a read. -/
structure StepInput where
  edge : Bool
  resp : BusResponse

/-- Which kind of step the system took: the GPIO interrupt handler, or
one instruction of the main loop. -/
inductive StepKind
  | irqRun
  | mainRun

/-- A hardware data-ready edge latches the GPIO interrupt flag and sets
the NVIC pending bit (the NVIC latches pending even while the interrupt
is disabled). -/
def edgeMerge (edge : Bool) (s : SysState) : SysState :=
  if edge then { s with gpioIF := true, nvicPending := true } else s

/-- The processor vectors into the GPIO handler exactly when the
interrupt is enabled and its line is asserted: either the latched NVIC
pending bit or the still-set GPIO interrupt flag (the flag is
level-connected to the NVIC input, so it re-pends while set). -/
def irqTaken (s : SysState) : Bool :=
  s.irqEnabled && (s.nvicPending || s.gpioIF)

/-- Effect of GPIO_EVEN_IRQHandler / GPIO_ODD_IRQHandler, lines 290-302
(the two handlers are identical): GPIO_IntClear(GPIO_IntGet()) clears the
interrupt flag, hardware clears the NVIC pending bit on entry, and the
handler sets dataAvailable = true.  No bus traffic and no LED output. -/
def handlerEff (s : SysState) : SysState :=
  { s with gpioIF := false, nvicPending := false, dataAvailable := true }

/-- One main-loop instruction, by program counter:
disableSensorInterrupts (lines 137-141, NVIC_DisableIRQ), the
dataAvailable test (line 364), the read/decode/clear/classify body
(lines 367-379, atomic here because the sensor interrupt is disabled
throughout it), enableSensorInterrupts (lines 147-153,
NVIC_ClearPendingIRQ then NVIC_EnableIRQ: pending is wiped but
immediately re-asserted while the GPIO interrupt flag is still set), and
the EMU_EnterEM3 wait (line 383) from which the loop resumes. -/
def mainEffAt : PC → StepInput → SysState → SysState
  | .disable, _, s => { s with irqEnabled := false, pc := .check }
  | .check, _, s => { s with pc := if s.dataAvailable then .service else .enable }
  | .service, inp, s =>
      let buf := algBufAfterRead inp.resp s.algresultData
      { s with pc := .enable, algresultData := buf, dataAvailable := false,
               ledTrace := s.ledTrace ++ [ledsSetArg (concatData buf)],
               txs := s.txs ++ [readMailboxTx CCS811_ADDR_ALG_RESULT_DATA 2] }
  | .enable, _, s => { s with nvicPending := s.gpioIF, irqEnabled := true, pc := .sleep }
  | .sleep, _, s => { s with pc := .disable }

/-- The main-loop instruction selected by the current program counter. -/
def mainEff (inp : StepInput) (s : SysState) : SysState :=
  mainEffAt s.pc inp s

/-- One system step: any arriving edge is latched first, then the handler
preempts if it is enabled and pending (interrupts have priority over the
main context), otherwise the main loop executes its next instruction. -/
def execStep (inp : StepInput) (s : SysState) : SysState × StepKind :=
  if irqTaken (edgeMerge inp.edge s) then (handlerEff (edgeMerge inp.edge s), .irqRun)
  else (mainEff inp (edgeMerge inp.edge s), .mainRun)

/-- Run the system through a list of step inputs. -/
def runSys (l : List StepInput) (s : SysState) : SysState :=
  match l with
  | [] => s
  | inp :: rest => runSys rest (execStep inp s).1

/-- State right after the boot sequence: enableSensorInterrupts (line
357) then EMU_EnterEM3 (line 358), dataAvailable still false (line 105),
no edge latched, the algresultData buffer indeterminate (modelled 0,0),
no LED output yet and no loop transaction yet. -/
def initState : SysState :=
  ⟨.sleep, true, false, false, false, (0, 0), [], []⟩

/-- The sensor interrupt is masked while the loop is between its
dataAvailable test and the end of the service body. -/
def maskedWindow (s : SysState) : Prop :=
  s.pc = .check ∨ s.pc = .service

/-- A quiet step input: no edge; the bus response is irrelevant for steps
that do not read. -/
def quietIn : StepInput := ⟨false, ⟨true, []⟩⟩

/-- A step input carrying a data-ready edge. -/
def edgeIn : StepInput := ⟨true, ⟨true, []⟩⟩

/-- Mid-window state with no event pending and dataAvailable = b: the
loop has just masked interrupts and is at the dataAvailable test. -/
def windowState (b : Bool) : SysState :=
  ⟨.check, false, false, false, b, (0, 0), [], []⟩

/-- A bus environment for the boot sequence in which every transaction
succeeds except the fourth, the writeCommand(APP_START) write (HW_ID
answers 0x81, STATUS 0x90, ERR_ID 0x00, the MEASURE_MODE echo 0x18). -/
def envAppStartFails : List BusResponse :=
  [ ⟨true, [0x81]⟩, ⟨true, [0x90]⟩, ⟨true, []⟩, ⟨false, []⟩
  , ⟨true, []⟩, ⟨true, [0x00]⟩, ⟨true, [0x18]⟩ ]

/-- Fixed list of the seven boot transactions, for reuse in proofs. -/
def bootTxList : List Transaction :=
  [ readMailboxTx CCS811_ADDR_HW_ID 1
  , readMailboxTx CCS811_ADDR_STATUS 1
  , writeNoDataTx CCS811_ADDR_FW_VERIFY
  , writeNoDataTx CCS811_ADDR_APP_START
  , writeRegisterTx CCS811_ADDR_MEASURE_MODE measureModeBoot
  , readMailboxTx CCS811_ADDR_ERR_ID 1
  , readMailboxTx CCS811_ADDR_MEASURE_MODE 1 ]

/-! ### Helper lemmas -/

/-- Big-endian recombination: oring a byte below 256 into a value shifted
left by 8 is the same as adding it. -/
theorem lor_shiftLeft_eq_add (b0 b1 : Nat) (h : b1 < 256) :
    b0 <<< 8 ||| b1 = 256 * b0 + b1 := by
  have h2 : b1 < 2 ^ 8 := h
  have hn : (256 : Nat) * b0 + b1 = 2 ^ 8 * b0 + b1 := by norm_num
  apply Nat.eq_of_testBit_eq
  intro i
  rw [hn, Nat.testBit_or, Nat.testBit_shiftLeft, Nat.testBit_mul_pow_two_add b0 h2 i]
  by_cases hi : i < 8
  · rw [if_pos hi, decide_eq_false (by omega), Bool.false_and, Bool.false_or]
  · have hb : b1.testBit i = false :=
      Nat.testBit_lt_two_pow
        (lt_of_lt_of_le h2 (Nat.pow_le_pow_right (by norm_num) (by omega)))
    rw [if_neg hi, decide_eq_true (by omega), Bool.true_and, hb, Bool.or_false]

theorem edgeMerge_pc (e : Bool) (s : SysState) : (edgeMerge e s).pc = s.pc := by
  unfold edgeMerge; split <;> rfl

theorem edgeMerge_irqEnabled (e : Bool) (s : SysState) :
    (edgeMerge e s).irqEnabled = s.irqEnabled := by
  unfold edgeMerge; split <;> rfl

theorem edgeMerge_dataAvailable (e : Bool) (s : SysState) :
    (edgeMerge e s).dataAvailable = s.dataAvailable := by
  unfold edgeMerge; split <;> rfl

theorem edgeMerge_txs (e : Bool) (s : SysState) : (edgeMerge e s).txs = s.txs := by
  unfold edgeMerge; split <;> rfl

/-- A step preserves the masking discipline: whenever the loop is at its
dataAvailable test or inside the service body, the sensor interrupt is
disabled. -/
theorem maskPreserved (inp : StepInput) (s : SysState)
    (h : maskedWindow s → s.irqEnabled = false) :
    maskedWindow (execStep inp s).1 → (execStep inp s).1.irqEnabled = false := by
  unfold execStep
  split
  · intro hm
    have hs : maskedWindow s := by
      unfold maskedWindow at hm ⊢
      rwa [show (handlerEff (edgeMerge inp.edge s)).pc = s.pc from
        (edgeMerge_pc inp.edge s)] at hm
    show (edgeMerge inp.edge s).irqEnabled = false
    rw [edgeMerge_irqEnabled]
    exact h hs
  · unfold mainEff
    rcases hc : (edgeMerge inp.edge s).pc with _ | _ | _ | _ | _ <;> intro hm
    · rfl
    · have hs : maskedWindow s := Or.inl (by rw [← edgeMerge_pc inp.edge s]; exact hc)
      show (edgeMerge inp.edge s).irqEnabled = false
      rw [edgeMerge_irqEnabled]; exact h hs
    · have hs : maskedWindow s := Or.inr (by rw [← edgeMerge_pc inp.edge s]; exact hc)
      show (edgeMerge inp.edge s).irqEnabled = false
      rw [edgeMerge_irqEnabled]; exact h hs
    · rcases hm with hm | hm
      · exact absurd (show PC.sleep = PC.check from hm) (by decide)
      · exact absurd (show PC.sleep = PC.service from hm) (by decide)
    · rcases hm with hm | hm
      · exact absurd (show PC.disable = PC.check from hm) (by decide)
      · exact absurd (show PC.disable = PC.service from hm) (by decide)

/-- The masking discipline holds along every run. -/
theorem maskInvariant (l : List StepInput) (s : SysState)
    (h : maskedWindow s → s.irqEnabled = false) :
    maskedWindow (runSys l s) → (runSys l s).irqEnabled = false := by
  induction l generalizing s with
  | nil => exact h
  | cons inp rest ih => exact ih _ (maskPreserved inp s h)

/-- Only the interrupt handler raises the dataAvailable flag. -/
theorem flagSetOnlyByHandler (inp : StepInput) (s : SysState)
    (h1 : s.dataAvailable = false) (h2 : (execStep inp s).1.dataAvailable = true) :
    (execStep inp s).2 = .irqRun := by
  by_cases hi : irqTaken (edgeMerge inp.edge s)
  · unfold execStep
    rw [if_pos hi]
  · exfalso
    unfold execStep at h2
    rw [if_neg hi] at h2
    have hda : (edgeMerge inp.edge s).dataAvailable = false := by
      rw [edgeMerge_dataAvailable]; exact h1
    unfold mainEff at h2
    rcases hc : (edgeMerge inp.edge s).pc with _ | _ | _ | _ | _ <;> rw [hc] at h2
    · have h2a : (edgeMerge inp.edge s).dataAvailable = true := h2
      exact Bool.noConfusion (hda.symm.trans h2a)
    · have h2a : (edgeMerge inp.edge s).dataAvailable = true := h2
      exact Bool.noConfusion (hda.symm.trans h2a)
    · have h2a : (false : Bool) = true := h2
      exact Bool.noConfusion h2a
    · have h2a : (edgeMerge inp.edge s).dataAvailable = true := h2
      exact Bool.noConfusion (hda.symm.trans h2a)
    · have h2a : (edgeMerge inp.edge s).dataAvailable = true := h2
      exact Bool.noConfusion (hda.symm.trans h2a)

/-- Only the service step of the read loop lowers the dataAvailable flag,
and it issues the two-byte ALG_RESULT_DATA read in the same step. -/
theorem flagClearOnlyByServiceStep (inp : StepInput) (s : SysState)
    (h1 : s.dataAvailable = true) (h2 : (execStep inp s).1.dataAvailable = false) :
    (execStep inp s).2 = .mainRun ∧ s.pc = .service ∧
      (execStep inp s).1.txs = s.txs ++ [readMailboxTx CCS811_ADDR_ALG_RESULT_DATA 2] := by
  have hda : (edgeMerge inp.edge s).dataAvailable = true := by
    rw [edgeMerge_dataAvailable]; exact h1
  by_cases hi : irqTaken (edgeMerge inp.edge s)
  · exfalso
    unfold execStep at h2
    rw [if_pos hi] at h2
    exact Bool.noConfusion (show (true : Bool) = false from h2)
  · unfold execStep at h2 ⊢
    rw [if_neg hi] at h2 ⊢
    unfold mainEff at h2 ⊢
    rcases hc : (edgeMerge inp.edge s).pc with _ | _ | _ | _ | _ <;> rw [hc] at h2
    · exact Bool.noConfusion
        (hda.symm.trans (show (edgeMerge inp.edge s).dataAvailable = false from h2))
    · exact Bool.noConfusion
        (hda.symm.trans (show (edgeMerge inp.edge s).dataAvailable = false from h2))
    · refine ⟨rfl, ?_, ?_⟩
      · rw [← edgeMerge_pc inp.edge s]; exact hc
      · show (edgeMerge inp.edge s).txs ++ _ = s.txs ++ _
        rw [edgeMerge_txs]
    · exact Bool.noConfusion
        (hda.symm.trans (show (edgeMerge inp.edge s).dataAvailable = false from h2))
    · exact Bool.noConfusion
        (hda.symm.trans (show (edgeMerge inp.edge s).dataAvailable = false from h2))

/-! ### Claim theorems -/

/-- Claim C1: the classifier is total over the uint16 domain (it is a
total function on Nat) and follows the fixed thresholds — above 1200
Alert, above 900 and at most 1200 Warning, at most 900 Good — with the
boundary values classify(900)=Good, classify(901)=Warning,
classify(1200)=Warning, classify(1201)=Alert, and severity monotonic
non-decreasing in the value. -/
theorem classifyThresholds :
    (∀ v : Nat, (1200 < v → classify v = .Alert)
      ∧ (900 < v → v ≤ 1200 → classify v = .Warning)
      ∧ (v ≤ 900 → classify v = .Good))
  ∧ classify 900 = .Good ∧ classify 901 = .Warning
  ∧ classify 1200 = .Warning ∧ classify 1201 = .Alert
  ∧ (∀ v w : Nat, v ≤ w → severity (classify v) ≤ severity (classify w)) := by
  refine ⟨fun v => ⟨?_, ?_, ?_⟩, by decide, by decide, by decide, by decide,
    fun v w h => ?_⟩
  · intro hv; unfold classify; rw [if_pos hv]
  · intro hv1 hv2; unfold classify; rw [if_neg (by omega), if_pos hv1]
  · intro hv; unfold classify; rw [if_neg (by omega), if_neg (by omega)]
  · unfold classify
    split_ifs <;> simp [severity] <;> omega

/-- Witness for C1 at concrete inputs. -/
theorem classifyThresholds_witness :
    classify 1500 = .Alert ∧ classify 1000 = .Warning ∧ classify 400 = .Good
  ∧ severity (classify 800) ≤ severity (classify 1300) :=
  ⟨(classifyThresholds.1 1500).1 (by decide),
   (classifyThresholds.1 1000).2.1 (by decide) (by decide),
   (classifyThresholds.1 400).2.2 (by decide),
   classifyThresholds.2.2.2.2.2 800 1300 (by decide)⟩

/-- Claim C2 (code bug): the claim says a failed runtime read must not
classify stale or partially-read data and must leave the previous output
level unchanged.  The code at line 367 discards readMailbox's return
code (which is 1 on failure), so the iteration always decodes whatever
is in the algresultData buffer and always drives the LEDs.  First
conjunct: the failed response really carries return code 1.  Second: on
the very first event, with the buffer still indeterminate (modelled
(0,0)) and no output emitted yet, a failed read emits the Good pattern —
an output level produced from no reading at all.  Third: with stale
Alert bytes in the buffer, a failed read classifies them and drives the
LEDs again. -/
theorem failedReadStillClassifies :
    readMailboxRC ⟨false, []⟩ = 1
  ∧ (loopIter ⟨false, []⟩ ⟨true, (0, 0), []⟩).1.ledTrace = [ledPattern .Good]
  ∧ (loopIter ⟨false, []⟩ ⟨true, (0x05, 0xDC), [3]⟩).1.ledTrace = [3, 3] := by
  decide

/-- Claim C3 (code bug): the claim says a writeCommand(APP_START)
failure is surfaced to the caller and the boot sequence does not proceed
to writing the measurement mode.  writeNoData (lines 235-256) has return
type void — its output is the issued transaction alone, identical for a
failed and a successful transfer — and in the environment where the
fourth transaction (APP_START) fails, the boot trace still contains the
APP_START write at position 3 followed by the MEASURE_MODE write at
position 4. -/
theorem appStartFailureNotSurfaced :
    (∀ r r' : BusResponse,
      writeNoDataOut CCS811_ADDR_APP_START r = writeNoDataOut CCS811_ADDR_APP_START r')
  ∧ respAt envAppStartFails 3 = ⟨false, []⟩
  ∧ (runBoot envAppStartFails).1.getD 3 (writeNoDataTx 0)
      = writeNoDataTx CCS811_ADDR_APP_START
  ∧ (runBoot envAppStartFails).1.getD 4 (writeNoDataTx 0)
      = writeRegisterTx CCS811_ADDR_MEASURE_MODE measureModeBoot :=
  ⟨fun _ _ => rfl, rfl, rfl, rfl⟩

/-- Claim C4: for every bus environment — any bytes and any
success/failure pattern returned for the diagnostic reads — the boot
sequence issues exactly the transactions read(HW_ID,1), read(STATUS,1),
writeCommand(FW_VERIFY), writeCommand(APP_START),
writeRegister(MEASURE_MODE, 1s-drive + INTERRUPT), read(ERR_ID,1),
read(MEASURE_MODE,1), in this order. -/
theorem bootSequenceFixedOrder (env : List BusResponse) :
    (runBoot env).1 =
      [ readMailboxTx CCS811_ADDR_HW_ID 1
      , readMailboxTx CCS811_ADDR_STATUS 1
      , writeNoDataTx CCS811_ADDR_FW_VERIFY
      , writeNoDataTx CCS811_ADDR_APP_START
      , writeRegisterTx CCS811_ADDR_MEASURE_MODE
          (CCS811_MEASURE_MODE_DRIVE_MODE_1SEC + CCS811_MEASURE_MODE_INTERRUPT)
      , readMailboxTx CCS811_ADDR_ERR_ID 1
      , readMailboxTx CCS811_ADDR_MEASURE_MODE 1 ] := rfl

/-- Claim C5: the read loop decodes the two ALG_RESULT_DATA bytes
big-endian (high byte first: for bytes below 256 the decoded value is
256*b0 + b1); with every transaction succeeding, bus bytes [0x03, 0x84]
= 900 make the iteration emit the Good pattern and [0x05, 0xDC] = 1500
the Alert pattern, while issuing the two-byte ALG_RESULT_DATA read. -/
theorem loopDecodesBigEndianAndClassifies :
    (∀ b0 b1 : Nat, b0 < 256 → b1 < 256 → concatData (b0, b1) = 256 * b0 + b1)
  ∧ concatData (0x03, 0x84) = 900 ∧ concatData (0x05, 0xDC) = 1500
  ∧ (loopIter ⟨true, [0x03, 0x84]⟩ ⟨true, (0, 0), []⟩).1.ledTrace
      = [ledPattern (classify 900)]
  ∧ (loopIter ⟨true, [0x05, 0xDC]⟩ ⟨true, (0, 0), []⟩).1.ledTrace
      = [ledPattern (classify 1500)]
  ∧ classify 900 = .Good ∧ classify 1500 = .Alert
  ∧ (loopIter ⟨true, [0x03, 0x84]⟩ ⟨true, (0, 0), []⟩).2
      = [readMailboxTx CCS811_ADDR_ALG_RESULT_DATA 2] := by
  refine ⟨?_, by decide, by decide, by decide, by decide, by decide, by decide,
    rfl⟩
  intro b0 b1 h0 h1
  unfold concatData
  dsimp only
  rw [Nat.mod_eq_of_lt h0, Nat.mod_eq_of_lt h1]
  exact lor_shiftLeft_eq_add b0 b1 h1

/-- Witness for C5's quantified decode statement at a concrete input. -/
theorem loopDecodesBigEndianAndClassifies_witness :
    concatData (3, 132) = 256 * 3 + 132 :=
  loopDecodesBigEndianAndClassifies.1 3 132 (by decide) (by decide)

/-- Claim C6 counterexample: writeMailbox does not take the payload
length as an explicit element count — line 222 uses sizeof(data) on a
uint8_t* parameter.  For the two-byte buffer [0x03, 0x84] the claimed
behaviour (payload = the buffer, length = element count 2, as in
writeMailboxSpecTx) differs from the embedded source behaviour, which
transmits sizeof(uint8_t*) = 4 bytes. -/
theorem writeMailboxLengthCounterexample :
    writeMailboxTx CCS811_ADDR_THRESHOLDS [0x03, 0x84]
      ≠ writeMailboxSpecTx CCS811_ADDR_THRESHOLDS [0x03, 0x84]
  ∧ (writeMailboxTx CCS811_ADDR_THRESHOLDS [0x03, 0x84]).payload.length ≠ 2 :=
  ⟨fun h => absurd (congrArg (fun t => t.payload.length) h) (by decide),
   by decide⟩

/-- Claim C6 (amended): writeMailbox always transmits exactly
sizeof(uint8_t*) = 4 payload bytes whatever the element count of its
buffer; this equals the thresholds register's declared 4-byte width (so
the single commented-out call site, which passes the 4-byte treshData
buffer, would have sent a width-matching payload); no transaction of the
boot sequence or of the read loop ever targets the thresholds register
(writeMailbox is never called in the active program); and writeRegister
always sends exactly one payload byte. -/
theorem writeMailboxLengthAmended :
    (∀ id data, (writeMailboxTx id data).payload.length = sizeof_uint8_ptr)
  ∧ sizeof_uint8_ptr = thresholdsWidth
  ∧ (∀ env, ∀ tx ∈ (runBoot env).1, tx.regId ≠ CCS811_ADDR_THRESHOLDS)
  ∧ (∀ resp s, ∀ tx ∈ (loopIter resp s).2, tx.regId ≠ CCS811_ADDR_THRESHOLDS)
  ∧ (∀ id d, (writeRegisterTx id d).payload.length = 1) := by
  refine ⟨?_, rfl, ?_, ?_, fun id d => rfl⟩
  · intro id data
    simp only [writeMailboxTx, sizeof_uint8_ptr, List.length_append,
      List.length_map, List.length_take, List.length_replicate]
    omega
  · intro env tx htx
    have hb : (runBoot env).1 = bootTxList := rfl
    rw [hb] at htx
    simp only [bootTxList, List.mem_cons, List.not_mem_nil, or_false] at htx
    rcases htx with rfl | rfl | rfl | rfl | rfl | rfl | rfl <;> decide
  · intro resp s tx htx
    by_cases hda : s.dataAvailable
    · unfold loopIter at htx
      rw [if_pos hda] at htx
      simp only [List.mem_cons, List.not_mem_nil, or_false] at htx
      subst htx
      decide
    · unfold loopIter at htx
      rw [if_neg hda] at htx
      exact absurd htx (List.not_mem_nil tx)

/-- Witness for C6's amended membership statements at concrete inputs. -/
theorem writeMailboxLengthAmended_witness :
    (readMailboxTx CCS811_ADDR_HW_ID 1).regId ≠ CCS811_ADDR_THRESHOLDS
  ∧ (readMailboxTx CCS811_ADDR_ALG_RESULT_DATA 2).regId ≠ CCS811_ADDR_THRESHOLDS :=
  ⟨writeMailboxLengthAmended.2.2.1 [] (readMailboxTx CCS811_ADDR_HW_ID 1)
     (List.Mem.head _),
   writeMailboxLengthAmended.2.2.2.1 ⟨true, [0, 0]⟩ ⟨true, (0, 0), []⟩
     (readMailboxTx CCS811_ADDR_ALG_RESULT_DATA 2) (List.Mem.head _)⟩

/-- Claim C8: the measure-mode byte written during boot is
DRIVE_MODE_1SEC + INTERRUPT = 0x18: the 3-bit drive field at bits 4-6
holds 1 (the 1-second mode), bit 3 (interrupt enable) is set, bit 2
(threshold interrupt) is clear, and the boot sequence writes exactly the
single payload byte 0x18 to the MEASURE_MODE register. -/
theorem measureModeEncoding :
    measureModeBoot = 0x18
  ∧ measureModeBoot
      = (1 <<< CCS811_MEASURE_MODE_DRIVE_MODE_SHIFT) ||| CCS811_MEASURE_MODE_INTERRUPT
  ∧ measureModeBoot.testBit 3 = true
  ∧ measureModeBoot.testBit 2 = false
  ∧ (measureModeBoot >>> CCS811_MEASURE_MODE_DRIVE_MODE_SHIFT) % 8 = 1
  ∧ (∀ env, writeRegisterTx CCS811_ADDR_MEASURE_MODE measureModeBoot ∈ (runBoot env).1)
  ∧ (writeRegisterTx CCS811_ADDR_MEASURE_MODE measureModeBoot).payload = [0x18] := by
  refine ⟨by decide, by decide, by decide, by decide, by decide, ?_, by decide⟩
  intro env
  have hb : (runBoot env).1 = bootTxList := rfl
  rw [hb]
  exact List.Mem.tail _ (List.Mem.tail _ (List.Mem.tail _ (List.Mem.tail _
    (List.Mem.head _))))

/-- Claim C9: every transaction of the boot sequence and of the read
loop carries the same fixed constant I2C_ADDRESS = 0xB6 as its slave
address; in the emlib convention this byte holds the 7-bit device
address in its upper seven bits (bit 0 is the R/W slot), so the device
address it denotes, 0xB6 >>> 1 = 0x5B, fits in 7 bits. -/
theorem deviceAddressFixed7Bit :
    (∀ env, ∀ tx ∈ (runBoot env).1, tx.addr = I2C_ADDRESS)
  ∧ (∀ resp s, ∀ tx ∈ (loopIter resp s).2, tx.addr = I2C_ADDRESS)
  ∧ I2C_ADDRESS = 0xB6
  ∧ I2C_ADDRESS >>> 1 < 2 ^ 7
  ∧ I2C_ADDRESS % 2 = 0 := by
  refine ⟨?_, ?_, rfl, by decide, by decide⟩
  · intro env tx htx
    have hb : (runBoot env).1 = bootTxList := rfl
    rw [hb] at htx
    simp only [bootTxList, List.mem_cons, List.not_mem_nil, or_false] at htx
    rcases htx with rfl | rfl | rfl | rfl | rfl | rfl | rfl <;> rfl
  · intro resp s tx htx
    by_cases hda : s.dataAvailable
    · unfold loopIter at htx
      rw [if_pos hda] at htx
      simp only [List.mem_cons, List.not_mem_nil, or_false] at htx
      subst htx
      rfl
    · unfold loopIter at htx
      rw [if_neg hda] at htx
      exact absurd htx (List.not_mem_nil tx)

/-- Witness for C9's membership statements at concrete inputs. -/
theorem deviceAddressFixed7Bit_witness :
    (writeNoDataTx CCS811_ADDR_APP_START).addr = I2C_ADDRESS
  ∧ (readMailboxTx CCS811_ADDR_ALG_RESULT_DATA 2).addr = I2C_ADDRESS :=
  ⟨deviceAddressFixed7Bit.1 [] (writeNoDataTx CCS811_ADDR_APP_START)
     (List.Mem.tail _ (List.Mem.tail _ (List.Mem.tail _ (List.Mem.head _)))),
   deviceAddressFixed7Bit.2.1 ⟨false, []⟩ ⟨true, (0, 0), []⟩
     (readMailboxTx CCS811_ADDR_ALG_RESULT_DATA 2) (List.Mem.head _)⟩

/-- Claim C7: over the whole-system transition model, (1) any step that
turns dataAvailable from false to true is an interrupt-handler step, and
(2) any step that turns it from true to false is a main-loop step at the
service position — the step in which the loop has issued its
ALG_RESULT_DATA read attempt; (3) along every run from the post-boot
state, the sensor interrupt is disabled whenever the loop is between its
dataAvailable test and the end of the service body (the check-and-clear
window); (4) and (5): both mid-window states — flag clear and flag
already set — are reached from the post-boot state; (6) an edge fired
while the loop sits masked at its dataAvailable test with no event
pending is not lost: within the next eight steps (at most two loop
cycles) the pending reading is read exactly once and the flag ends
consumed; (7) likewise when the window was entered with an event already
pending, the old and the new event each get their read — two reads, none
lost — across the two consecutive cycles. -/
theorem dataReadyFlagDiscipline :
    (∀ inp s, s.dataAvailable = false → (execStep inp s).1.dataAvailable = true →
      (execStep inp s).2 = .irqRun)
  ∧ (∀ inp s, s.dataAvailable = true → (execStep inp s).1.dataAvailable = false →
      (execStep inp s).2 = .mainRun ∧ s.pc = .service ∧
        (execStep inp s).1.txs = s.txs ++ [readMailboxTx CCS811_ADDR_ALG_RESULT_DATA 2])
  ∧ (∀ l, maskedWindow (runSys l initState) → (runSys l initState).irqEnabled = false)
  ∧ (∀ ra rb : BusResponse,
      runSys [⟨false, ra⟩, ⟨false, rb⟩] initState = windowState false)
  ∧ (∀ ra rb rc : BusResponse,
      runSys [⟨true, ra⟩, ⟨false, rb⟩, ⟨false, rc⟩] initState = windowState true)
  ∧ (∀ r1 r2 r3 r4 r5 r6 r7 r8 : BusResponse,
      (runSys [⟨true, r1⟩, ⟨false, r2⟩, ⟨false, r3⟩, ⟨false, r4⟩, ⟨false, r5⟩,
        ⟨false, r6⟩, ⟨false, r7⟩, ⟨false, r8⟩] (windowState false)).txs
          = [readMailboxTx CCS811_ADDR_ALG_RESULT_DATA 2]
      ∧ (runSys [⟨true, r1⟩, ⟨false, r2⟩, ⟨false, r3⟩, ⟨false, r4⟩, ⟨false, r5⟩,
          ⟨false, r6⟩, ⟨false, r7⟩, ⟨false, r8⟩] (windowState false)).dataAvailable
            = false)
  ∧ (∀ r1 r2 r3 r4 r5 r6 r7 r8 : BusResponse,
      (runSys [⟨true, r1⟩, ⟨false, r2⟩, ⟨false, r3⟩, ⟨false, r4⟩, ⟨false, r5⟩,
        ⟨false, r6⟩, ⟨false, r7⟩, ⟨false, r8⟩] (windowState true)).txs
          = [readMailboxTx CCS811_ADDR_ALG_RESULT_DATA 2,
             readMailboxTx CCS811_ADDR_ALG_RESULT_DATA 2]
      ∧ (runSys [⟨true, r1⟩, ⟨false, r2⟩, ⟨false, r3⟩, ⟨false, r4⟩, ⟨false, r5⟩,
          ⟨false, r6⟩, ⟨false, r7⟩, ⟨false, r8⟩] (windowState true)).dataAvailable
            = false) :=
  ⟨flagSetOnlyByHandler, flagClearOnlyByServiceStep,
   fun l => maskInvariant l initState
     (fun hm => absurd hm (fun hm' => hm'.elim
       (fun h1 => PC.noConfusion (show PC.sleep = PC.check from h1))
       (fun h1 => PC.noConfusion (show PC.sleep = PC.service from h1)))),
   fun _ _ => rfl, fun _ _ _ => rfl,
   fun _ _ _ _ _ _ _ _ => ⟨rfl, rfl⟩,
   fun _ _ _ _ _ _ _ _ => ⟨rfl, rfl⟩⟩

/-- Witness for C7's quantified parts at concrete inputs. -/
theorem dataReadyFlagDiscipline_witness :
    (execStep ⟨true, ⟨true, []⟩⟩ initState).2 = .irqRun
  ∧ ((execStep ⟨false, ⟨false, []⟩⟩ ⟨.service, false, false, false, true, (0, 0), [], []⟩).2
        = .mainRun
      ∧ (⟨.service, false, false, false, true, (0, 0), [], []⟩ : SysState).pc = .service
      ∧ (execStep ⟨false, ⟨false, []⟩⟩
          ⟨.service, false, false, false, true, (0, 0), [], []⟩).1.txs
            = [] ++ [readMailboxTx CCS811_ADDR_ALG_RESULT_DATA 2])
  ∧ (runSys [⟨false, ⟨true, []⟩⟩, ⟨false, ⟨true, []⟩⟩] initState).irqEnabled = false :=
  ⟨dataReadyFlagDiscipline.1 ⟨true, ⟨true, []⟩⟩ initState (by decide) (by decide),
   dataReadyFlagDiscipline.2.1 ⟨false, ⟨false, []⟩⟩
     ⟨.service, false, false, false, true, (0, 0), [], []⟩ (by decide) (by decide),
   dataReadyFlagDiscipline.2.2.1 [⟨false, ⟨true, []⟩⟩, ⟨false, ⟨true, []⟩⟩]
     (Or.inl rfl)⟩

/-- Claim C10: in every iteration that observes dataAvailable true, the
flag is cleared unconditionally after the read attempt — for every bus
response, failed ones included — the two-byte ALG_RESULT_DATA read is
issued exactly once, and from the resulting cleared state every further
iteration issues no transaction and changes nothing (so no further read
or classification happens until the flag is set again). -/
theorem failedReadConsumesEvent (resp : BusResponse) (s : LoopState)
    (h : s.dataAvailable = true) :
    (loopIter resp s).1.dataAvailable = false
  ∧ (loopIter resp s).2 = [readMailboxTx CCS811_ADDR_ALG_RESULT_DATA 2]
  ∧ (∀ resp', loopIter resp' (loopIter resp s).1 = ((loopIter resp s).1, [])) := by
  refine ⟨?_, ?_, ?_⟩
  · unfold loopIter; rw [if_pos h]
  · unfold loopIter; rw [if_pos h]
  · intro resp'
    unfold loopIter
    rw [if_pos h]
    rw [if_neg (by exact Bool.noConfusion)]

/-- Witness for C10 at a concrete failing read. -/
theorem failedReadConsumesEvent_witness :
    (loopIter ⟨false, []⟩ ⟨true, (1, 2), [0]⟩).1.dataAvailable = false
  ∧ (loopIter ⟨false, []⟩ ⟨true, (1, 2), [0]⟩).2
      = [readMailboxTx CCS811_ADDR_ALG_RESULT_DATA 2] := by
  have h := failedReadConsumesEvent ⟨false, []⟩ ⟨true, (1, 2), [0]⟩ (by decide)
  exact ⟨h.1, h.2.1⟩

end PmodAQS
